import Mathlib

/-!
Shallow embedding of `prodoh` (src/prodoh.go), a DNS → DNS-over-HTTPS proxy,
and proofs about it.

Modelling conventions:
* `dns.RR` (a parsed resource record of the miekg/dns library) is an abstract
  type parameter `ρ`; `dns.NewRR` is an oracle `newRR : String → Except String ρ`.
* The HTTP transport plus JSON decoding inside `DoHQuery` is an oracle
  `fetch`, taking the context deadline (in nanoseconds, `none` = no deadline),
  the upstream URL and the two query parameters, and returning either a
  transport/decode error or the decoded `Response` envelope.
* Go errors are the `String` error component of `Except`.
* Go `int64` / `time.Duration` arithmetic wraps; `int64wrap` models that.
* The functions of the miekg/dns library that the handler calls
  (`Msg.SetReply`, `Msg.SetRcode`, `HandleFailed`) are modelled from that
  library's behaviour: `SetReply` copies the request id and opcode, sets the
  success rcode, and carries over at most the FIRST question of the request.
* A `dns.ResponseWriter` is modelled by returning the list of messages
  written to it, in write order.
-/

/-- Constant `dns.TypeA` of the miekg/dns library. -/
def typeA : Nat := 1
/-- Constant `dns.TypeNS` of the miekg/dns library. -/
def typeNS : Nat := 2
/-- Constant `dns.TypeCNAME` of the miekg/dns library. -/
def typeCNAME : Nat := 5
/-- Constant `dns.TypeSOA` of the miekg/dns library. -/
def typeSOA : Nat := 6
/-- Constant `dns.TypePTR` of the miekg/dns library. -/
def typePTR : Nat := 12
/-- Constant `dns.TypeMX` of the miekg/dns library. -/
def typeMX : Nat := 15
/-- Constant `dns.TypeTXT` of the miekg/dns library. -/
def typeTXT : Nat := 16
/-- Constant `dns.TypeAAAA` of the miekg/dns library. -/
def typeAAAA : Nat := 28
/-- Constant `dns.TypeSPF` of the miekg/dns library. -/
def typeSPF : Nat := 99
/-- Constant `dns.TypeANY` of the miekg/dns library. -/
def typeANY : Nat := 255

/-- The set of type codes `typeToString` supports, in source order
(src/prodoh.go lines 70-89). -/
def supportedTypeCodes : List Nat :=
  [typeA, typeAAAA, typeCNAME, typeMX, typeTXT, typeSPF, typeNS, typeSOA,
   typePTR, typeANY]

/-- Embeds `typeToString` (src/prodoh.go lines 68-92): the Go `switch` on the
numeric record type, with the fall-through `fmt.Errorf("Unsupported type %d", …)`. -/
def typeToString (dnsType : Nat) : Except String String :=
  if dnsType = typeA then .ok "A"
  else if dnsType = typeAAAA then .ok "AAAA"
  else if dnsType = typeCNAME then .ok "CNAME"
  else if dnsType = typeMX then .ok "MX"
  else if dnsType = typeTXT then .ok "TXT"
  else if dnsType = typeSPF then .ok "SPF"
  else if dnsType = typeNS then .ok "NS"
  else if dnsType = typeSOA then .ok "SOA"
  else if dnsType = typePTR then .ok "PTR"
  else if dnsType = typeANY then .ok "ANY"
  else .error ("Unsupported type " ++ toString dnsType)

/-- Embeds the `Question` struct of the DoH JSON envelope
(src/prodoh.go lines 43-46). -/
structure Question where
  name : String
  type : Int
deriving DecidableEq, Repr

/-- Embeds the `Answer` struct of the DoH JSON envelope
(src/prodoh.go lines 49-54): `Name`, a `uint16` `Type`, an `int` `TTL` and
the record `Data` as text. -/
structure Answer where
  name : String
  type : Nat
  ttl : Int
  data : String
deriving DecidableEq, Repr

/-- Embeds the `Response` struct, the decoded DoH JSON envelope
(src/prodoh.go lines 57-66). -/
structure Response where
  status : Int
  tc : Bool := false
  rd : Bool := false
  ra : Bool := false
  ad : Bool := false
  cd : Bool := false
  question : List Question := []
  answer : List Answer := []
deriving DecidableEq, Repr

/-- The master-file text `fmt.Sprintf("%s %d IN %s %s", answer.Name,
answer.TTL, t, answer.Data)` synthesized for one answer entry
(src/prodoh.go line 158), given the mnemonic `t` already computed. -/
def synthText (a : Answer) (t : String) : String :=
  a.name ++ " " ++ toString a.ttl ++ " IN " ++ t ++ " " ++ a.data

/-- One iteration of the answer-conversion loop of `DoHQuery`
(src/prodoh.go lines 154-162): map the entry's numeric type to a mnemonic,
synthesize the master-file text and hand it to `dns.NewRR` (the oracle
`newRR`); either step's error is returned as the loop's error. -/
def convertOne (newRR : String → Except String ρ) (a : Answer) :
    Except String ρ :=
  match typeToString a.type with
  | .error e => .error e
  | .ok t => newRR (synthText a t)

/-- The whole answer-conversion loop of `DoHQuery` (src/prodoh.go lines
152-164): converts the entries in list order, aborting with the first
error; on success the records come back in the same order. -/
def convertAnswers (newRR : String → Except String ρ) :
    List Answer → Except String (List ρ)
  | [] => .ok []
  | a :: rest =>
    match convertOne newRR a with
    | .error e => .error e
    | .ok r =>
      match convertAnswers newRR rest with
      | .error e => .error e
      | .ok rs => .ok (r :: rs)

/-- The part of `DoHQuery` that runs on the decoded envelope
(src/prodoh.go lines 148-166): reject a non-zero `Status` with
`fmt.Errorf("DOH failed response code %d", rr.Status)`, otherwise convert
the answer list. -/
def processEnvelope (newRR : String → Except String ρ) (rr : Response) :
    Except String (List ρ) :=
  if rr.status ≠ 0 then
    .error ("DOH failed response code " ++ toString rr.status)
  else
    convertAnswers newRR rr.answer

/-- Go's `time.Second` as a count of nanoseconds. -/
def timeSecond : Int := 1000000000

/-- Wrap-around of Go `int64` (and `time.Duration`) arithmetic. -/
def int64wrap (x : Int) : Int := (x + 2 ^ 63) % 2 ^ 64 - 2 ^ 63

/-- The context set-up of `DoHQuery` (src/prodoh.go lines 126-131): with the
flag value `timeout` (a Go `time.Duration`, i.e. an `int64`), a positive
value installs a deadline of `timeout * time.Second` nanoseconds (computed
in wrapping `int64` arithmetic), any other value leaves the background
context, which has no deadline. -/
def dohDeadlineNs (timeout : Int) : Option Int :=
  if 0 < timeout then some (int64wrap (timeout * timeSecond)) else none

/-- Embeds `DoHQuery` (src/prodoh.go lines 121-167). The oracle `fetch`
stands for `httpGet` followed by the JSON decode (lines 137-146): it
receives the context deadline and the `name`/`type` query parameters
(the mnemonic is passed through `strings.TrimSpace`, line 135) and yields
either a transport/decode error or the decoded envelope. -/
def DoHQuery (fetch : Option Int → String → String → String → Except String Response)
    (newRR : String → Except String ρ) (timeout : Int)
    (upstream name : String) (dnsType : Nat) : Except String (List ρ) :=
  match typeToString dnsType with
  | .error e => .error e
  | .ok t =>
    match fetch (dohDeadlineNs timeout) upstream name t.trim with
    | .error e => .error e
    | .ok rr => processEnvelope newRR rr

/-- Constant `dns.OpcodeQuery` of the miekg/dns library. -/
def opcodeQuery : Nat := 0

/-- Constant `dns.RcodeSuccess` of the miekg/dns library. -/
def rcodeSuccess : Nat := 0

/-- Constant `dns.RcodeServerFailure` (SERVFAIL) of the miekg/dns library. -/
def rcodeServerFailure : Nat := 2

/-- One entry of `dns.Msg.Question`: the owner name and the queried type
(the fields `q.Name` and `q.Qtype` read at src/prodoh.go line 172). -/
structure DnsQuestion where
  name : String
  qtype : Nat
deriving DecidableEq, Repr

/-- The fields of miekg/dns `dns.Msg` that src/prodoh.go reads or writes.
`ρ` stands for `dns.RR`; a fresh `new(dns.Msg)` is the record with every
default. -/
structure Msg (ρ : Type) where
  id : Nat := 0
  response : Bool := false
  opcode : Nat := 0
  rcode : Nat := 0
  recursionDesired : Bool := false
  checkingDisabled : Bool := false
  compress : Bool := false
  question : List DnsQuestion := []
  answer : List ρ := []
deriving DecidableEq, Repr

/-- Models `(*dns.Msg).SetReply` of the miekg/dns library applied to a fresh
message (as in `m := new(dns.Msg); m.SetReply(req)`, src/prodoh.go lines
192-193): copies the request's id and opcode, copies the rd/cd bits only
for a standard query, sets the success rcode, and carries over at most the
first question of the request; everything else keeps its zero value. -/
def setReply (req : Msg ρ) : Msg ρ :=
  { id := req.id
    response := true
    opcode := req.opcode
    recursionDesired := if req.opcode = opcodeQuery then req.recursionDesired else false
    checkingDisabled := if req.opcode = opcodeQuery then req.checkingDisabled else false
    rcode := rcodeSuccess
    compress := false
    question := req.question.take 1
    answer := [] }

/-- Models `(*dns.Msg).SetRcode` of the miekg/dns library on a fresh
message: `SetReply` followed by overwriting the rcode. -/
def setRcode (req : Msg ρ) (rcode : Nat) : Msg ρ :=
  { setReply req with rcode := rcode }

/-- Models `dns.HandleFailed` of the miekg/dns library: the SERVFAIL
message it writes back for the request. -/
def handleFailedMsg (req : Msg ρ) : Msg ρ :=
  setRcode req rcodeServerFailure

/-- The inner loop of `parseQuery` over the configured upstreams
(src/prodoh.go lines 171-181), for one question `q` of the reply `m`.
`doh` abstracts `DoHQuery(upstream, q.Name, q.Qtype)`. A failed call is
logged and skipped (`continue`); the first successful call appends exactly
its records to `m.Answer` and makes `parseQuery` return (`some` updated
reply). `none` means the loop ran off the end of the upstream list. -/
def parseQueryUpstreams (doh : String → String → Nat → Except String (List ρ))
    (ups : List String) (q : DnsQuestion) (m : Msg ρ) : Option (Msg ρ) :=
  match ups with
  | [] => none
  | u :: rest =>
    match doh u q.name q.qtype with
    | .error _ => parseQueryUpstreams doh rest q m
    | .ok rsp => some { m with answer := m.answer ++ rsp }

/-- The outer loop of `parseQuery` over `m.Question`
(src/prodoh.go lines 170-182): the first question whose upstream loop
succeeds ends the function; otherwise move on to the next question. -/
def parseQueryQuestions (doh : String → String → Nat → Except String (List ρ))
    (ups : List String) (qs : List DnsQuestion) (m : Msg ρ) : Option (Msg ρ) :=
  match qs with
  | [] => none
  | q :: rest =>
    match parseQueryUpstreams doh ups q m with
    | some m2 => some m2
    | none => parseQueryQuestions doh ups rest m

/-- Embeds `parseQuery` (src/prodoh.go lines 169-184): returns the updated
reply `m` and the list of messages written to the response writer `w`
(only `dns.HandleFailed` writes here, when no question resolved). -/
def parseQuery (doh : String → String → Nat → Except String (List ρ))
    (ups : List String) (m req : Msg ρ) : Msg ρ × List (Msg ρ) :=
  match parseQueryQuestions doh ups m.question m with
  | some m2 => (m2, [])
  | none => (m, [handleFailedMsg req])

/-- Embeds `handleDnsRequest` (src/prodoh.go lines 186-202): returns the
messages written to the response writer, in write order. A request without
questions is answered by `dns.HandleFailed` alone; otherwise the reply `m`
is built with `SetReply` (compression disabled — already false in the
model), `parseQuery` runs only for the `dns.OpcodeQuery` opcode, and `m`
is written unconditionally at the end. -/
def handleDnsRequest (doh : String → String → Nat → Except String (List ρ))
    (ups : List String) (req : Msg ρ) : List (Msg ρ) :=
  if req.question.length = 0 then
    [handleFailedMsg req]
  else
    let m := setReply req
    let r := if req.opcode = opcodeQuery then parseQuery doh ups m req else (m, [])
    r.2 ++ [r.1]

/-- Specification-level view of the upstream fallback loop (the spec's
Upstream Selector): the records of the first upstream, in configured
order, whose `DoHQuery` call returns without error; `none` when every
upstream fails. Proven equivalent to `parseQueryUpstreams` below. -/
def tryUpstreams (doh : String → String → Nat → Except String (List ρ))
    (ups : List String) (q : DnsQuestion) : Option (List ρ) :=
  match ups with
  | [] => none
  | u :: rest =>
    match doh u q.name q.qtype with
    | .error _ => tryUpstreams doh rest q
    | .ok rsp => some rsp

deriving instance DecidableEq for Except

/-- Concrete envelope: success with one A answer (the spec's worked
example). -/
def envExample : Response :=
  { status := 0,
    answer := [{ name := "example.com.", type := 1, ttl := 300,
                 data := "93.184.216.34" }] }

/-- Concrete envelope: upstream rejection with status 2 and a non-empty
answer list. -/
def envRejected : Response :=
  { status := 2,
    answer := [{ name := "example.com.", type := 1, ttl := 300,
                 data := "93.184.216.34" }] }

/-- Concrete envelope: success with an empty answer list. -/
def envEmpty : Response := { status := 0, answer := [] }

/-- A fetch oracle that always yields the given decoded envelope. -/
def fetchOf (rr : Response) :
    Option Int → String → String → String → Except String Response :=
  fun _ _ _ _ => .ok rr

/-- Concrete request: a standard query with a single A question. -/
def reqOneQ : Msg String :=
  { id := 42, opcode := 0, question := [{ name := "example.com.", qtype := 1 }] }

/-- Concrete request: a standard query carrying two questions. -/
def reqTwoQ : Msg String :=
  { id := 7, opcode := 0,
    question := [{ name := "a.example.", qtype := 1 },
                 { name := "b.example.", qtype := 1 }] }

/-- Concrete request: one question but a non-QUERY opcode (4 = Notify). -/
def reqNonQuery : Msg String :=
  { id := 5, opcode := 4, question := [{ name := "example.com.", qtype := 1 }] }

/-- A DoH oracle on which every upstream call fails. -/
def dohFail : String → String → Nat → Except String (List String) :=
  fun _ _ _ => .error "connection refused"

/-- A DoH oracle that fails for the first question's name and succeeds for
the second question's name of `reqTwoQ`, on every upstream. -/
def dohSecondOnly : String → String → Nat → Except String (List String) :=
  fun _ name _ =>
    if name = "b.example." then .ok ["b.example. 300 IN A 192.0.2.1"]
    else .error "SERVFAIL from upstream"

/-! Helper lemmas. -/

/-- The inner upstream loop of `parseQuery` computes exactly the
first-success selection `tryUpstreams`, appending the winning records to
the reply. -/
theorem parseQueryUpstreams_eq (doh : String → String → Nat → Except String (List ρ))
    (ups : List String) (q : DnsQuestion) (m : Msg ρ) :
    parseQueryUpstreams doh ups q m =
      (tryUpstreams doh ups q).map (fun rs => { m with answer := m.answer ++ rs }) := by
  induction ups with
  | nil => rfl
  | cons u rest ih =>
    cases h : doh u q.name q.qtype with
    | error e => simp [parseQueryUpstreams, tryUpstreams, h, ih]
    | ok rsp => simp [parseQueryUpstreams, tryUpstreams, h]

/-- When every configured upstream fails on the question, the
first-success selection comes up empty. -/
theorem tryUpstreams_eq_none (doh : String → String → Nat → Except String (List ρ))
    (ups : List String) (q : DnsQuestion)
    (h : ∀ u ∈ ups, ∃ e, doh u q.name q.qtype = .error e) :
    tryUpstreams doh ups q = none := by
  induction ups with
  | nil => rfl
  | cons u rest ih =>
    obtain ⟨e, he⟩ := h u (by simp)
    have hr := ih (fun v hv => h v (by simp [hv]))
    simp [tryUpstreams, he, hr]

/-- Characterization of `handleDnsRequest` on a standard query with at
least one question: the outcome is decided by the first-success selection
over the upstreams for the FIRST question only (the reply built by
`SetReply` carries only that question). -/
theorem handleDnsRequest_query (doh : String → String → Nat → Except String (List ρ))
    (ups : List String) (req : Msg ρ) (q : DnsQuestion) (rest : List DnsQuestion)
    (hop : req.opcode = opcodeQuery) (hq : req.question = q :: rest) :
    handleDnsRequest doh ups req =
      match tryUpstreams doh ups q with
      | some rs => [{ setReply req with answer := rs }]
      | none => [handleFailedMsg req, setReply req] := by
  have hsr : (setReply req).question = [q] := by
    simp [setReply, hq]
  cases htu : tryUpstreams doh ups q with
  | some rs =>
    simp [handleDnsRequest, hq, hop, parseQuery, parseQueryQuestions, hsr,
      parseQueryUpstreams_eq, htu, setReply]
  | none =>
    simp [handleDnsRequest, hq, hop, parseQuery, parseQueryQuestions, hsr,
      parseQueryUpstreams_eq, htu]

/-- When every answer entry converts, the loop succeeds with the converted
records in list order. -/
theorem convertAnswers_map (newRR : String → Except String ρ) (f : Answer → ρ)
    (l : List Answer) (h : ∀ a ∈ l, convertOne newRR a = .ok (f a)) :
    convertAnswers newRR l = .ok (l.map f) := by
  induction l with
  | nil => rfl
  | cons a rest ih =>
    have ha := h a (by simp)
    have hr := ih (fun b hb => h b (by simp [hb]))
    simp [convertAnswers, ha, hr]

/-- The first failing answer entry aborts the loop with its error. -/
theorem convertAnswers_error (newRR : String → Except String ρ)
    (l pre post : List Answer) (a : Answer) (e : String)
    (hl : l = pre ++ a :: post)
    (hpre : ∀ b ∈ pre, ∃ r, convertOne newRR b = .ok r)
    (ha : convertOne newRR a = .error e) :
    convertAnswers newRR l = .error e := by
  subst hl
  induction pre with
  | nil => simp [convertAnswers, ha]
  | cons b bs ih =>
    obtain ⟨r, hb⟩ := hpre b (by simp)
    have hr := ih (fun c hc => hpre c (by simp [hc]))
    simp [convertAnswers, hb, hr]

/-- A signed 64-bit value already in range is unchanged by wrapping. -/
theorem int64wrap_eq_self (x : Int) (h1 : -(2 ^ 63) ≤ x) (h2 : x < 2 ^ 63) :
    int64wrap x = x := by
  simp only [int64wrap]
  omega

/-- The wrapped value always lies strictly below `2 ^ 63`. -/
theorem int64wrap_lt (x : Int) : int64wrap x < 2 ^ 63 := by
  simp only [int64wrap]
  omega

/-! Claim theorems. -/

/-- Claim C7, counterexample: the claim offers code 99 as an example of a
code outside the supported set that must fail, but 99 is `dns.TypeSPF`:
it belongs to the supported set and maps to `"SPF"`. -/
theorem C7_counterexample :
    typeToString 99 = .ok "SPF" ∧ typeSPF = 99 ∧ 99 ∈ supportedTypeCodes := by
  refine ⟨rfl, rfl, by decide⟩

/-- Claim C7 (amended): `typeToString` is total on the supported set
{A, AAAA, CNAME, MX, TXT, SPF, NS, SOA, PTR, ANY}, sending its ten codes
to ten pairwise distinct mnemonics, and every code outside the set (e.g.
98 — but not 99, which is SPF) fails with the `Unsupported type` error. -/
theorem C7_mapper :
    supportedTypeCodes.map typeToString =
      [.ok "A", .ok "AAAA", .ok "CNAME", .ok "MX", .ok "TXT", .ok "SPF",
       .ok "NS", .ok "SOA", .ok "PTR", .ok "ANY"] ∧
    (supportedTypeCodes.map typeToString).Nodup ∧
    (∀ c : Nat, c ∉ supportedTypeCodes →
       typeToString c = .error ("Unsupported type " ++ toString c)) := by
  refine ⟨by decide, by decide, ?_⟩
  intro c hc
  simp only [supportedTypeCodes, typeA, typeAAAA, typeCNAME, typeMX, typeTXT,
    typeSPF, typeNS, typeSOA, typePTR, typeANY, List.mem_cons,
    List.not_mem_nil, or_false, not_or] at hc
  obtain ⟨h1, h2, h3, h4, h5, h6, h7, h8, h9, h10⟩ := hc
  simp [typeToString, typeA, typeAAAA, typeCNAME, typeMX, typeTXT, typeSPF,
    typeNS, typeSOA, typePTR, typeANY, h1, h2, h3, h4, h5, h6, h7, h8, h9, h10]

/-- Claim C7 witness: code 98 lies outside the supported set and fails. -/
theorem C7_witness :
    98 ∉ supportedTypeCodes ∧ typeToString 98 = .error ("Unsupported type " ++ toString 98) :=
  ⟨by decide, C7_mapper.2.2 98 (by decide)⟩

/-- Claim C5: a decoded envelope with non-zero status makes the DoH client
fail with the error carrying that status code and produce no records,
whatever the answer list holds; correspondingly a full `DoHQuery` call
whose fetch decodes to that envelope fails the same way. -/
theorem C5_upstreamRejected (newRR : String → Except String ρ) (rr : Response)
    (h : rr.status ≠ 0) :
    processEnvelope newRR rr =
      .error ("DOH failed response code " ++ toString rr.status) ∧
    ∀ (fetch : Option Int → String → String → String → Except String Response)
      (timeout : Int) (upstream name t : String) (dnsType : Nat),
      typeToString dnsType = .ok t →
      fetch (dohDeadlineNs timeout) upstream name t.trim = .ok rr →
      DoHQuery fetch newRR timeout upstream name dnsType =
        .error ("DOH failed response code " ++ toString rr.status) := by
  constructor
  · simp [processEnvelope, h]
  · intro fetch timeout upstream name t dnsType ht hf
    simp [DoHQuery, ht, hf, processEnvelope, h]

/-- Claim C5 witness: status 2 with a non-empty answer list yields exactly
the rejection error, through the full `DoHQuery` as well. -/
theorem C5_witness :
    envRejected.status ≠ 0 ∧
    processEnvelope (fun s => Except.ok s) envRejected =
      .error "DOH failed response code 2" ∧
    DoHQuery (fetchOf envRejected) (fun s => Except.ok s) 10 "U1" "example.com." 1 =
      .error "DOH failed response code 2" := by
  have w := C5_upstreamRejected (fun s => Except.ok s) envRejected (by decide)
  exact ⟨by decide, w.1, w.2 (fetchOf envRejected) 10 "U1" "example.com." "A" 1 rfl rfl⟩

/-- Claim C2: with status 0 the DoH client converts each answer entry, in
the order of the JSON answer list, into a record parsed (via `dns.NewRR`,
the oracle `newRR`) from the synthesized master-file text
`"<name> <TTL> IN <mnemonic> <data>"`; one entry with an unsupported
numeric type or unparseable text fails the whole call with that error, so
no records are returned. -/
theorem C2_convertAll (newRR : String → Except String ρ) (rr : Response)
    (h : rr.status = 0) :
    processEnvelope newRR rr = convertAnswers newRR rr.answer ∧
    (∀ f : Answer → ρ,
       (∀ a ∈ rr.answer, convertOne newRR a = .ok (f a)) →
       processEnvelope newRR rr = .ok (rr.answer.map f)) ∧
    (∀ (pre post : List Answer) (a : Answer) (e : String),
       rr.answer = pre ++ a :: post →
       (∀ b ∈ pre, ∃ r, convertOne newRR b = .ok r) →
       convertOne newRR a = .error e →
       processEnvelope newRR rr = .error e) := by
  have h0 : processEnvelope newRR rr = convertAnswers newRR rr.answer := by
    simp [processEnvelope, h]
  refine ⟨h0, ?_, ?_⟩
  · intro f hf
    rw [h0]
    exact convertAnswers_map newRR f rr.answer hf
  · intro pre post a e hl hpre ha
    rw [h0]
    exact convertAnswers_error newRR rr.answer pre post a e hl hpre ha

/-- Claim C2 witness: the spec's worked example — status 0 with the single
answer `{name: "example.com.", type: 1, TTL: 300, data: "93.184.216.34"}`
produces exactly the record parsed from
`example.com. 300 IN A 93.184.216.34`. -/
theorem C2_witness :
    envExample.status = 0 ∧
    processEnvelope (fun s => Except.ok s) envExample =
      .ok ["example.com. 300 IN A 93.184.216.34"] := by
  refine ⟨rfl, ?_⟩
  have w := (C2_convertAll (fun s => Except.ok s) envExample rfl).2.1
    (fun _ => "example.com. 300 IN A 93.184.216.34")
    (by intro a ha; simp [envExample] at ha; subst ha; rfl)
  exact w

/-- Claim C8: a request with zero questions gets the single failure
response, and the outcome is the same whatever DoH oracle and upstream
list are configured — no upstream call can influence it. -/
theorem C8_zeroQuestions (doh doh' : String → String → Nat → Except String (List ρ))
    (ups ups' : List String) (req : Msg ρ) (h : req.question = []) :
    handleDnsRequest doh ups req = [handleFailedMsg req] ∧
    (handleFailedMsg req).rcode = rcodeServerFailure ∧
    (handleFailedMsg req).id = req.id ∧
    handleDnsRequest doh ups req = handleDnsRequest doh' ups' req := by
  refine ⟨?_, rfl, rfl, ?_⟩ <;> simp [handleDnsRequest, h]

/-- Claim C8 witness: the empty-question request at a concrete input. -/
theorem C8_witness :
    handleDnsRequest dohFail ["U1", "U2"] { id := 9, question := [] } =
      [handleFailedMsg { id := 9, question := ([] : List DnsQuestion) }] :=
  (C8_zeroQuestions dohFail dohSecondOnly ["U1", "U2"] []
    { id := 9, question := [] } rfl).1

/-- Claim C3, counterexample: a request with one question and opcode 4
(a non-QUERY opcode) is answered by a single message carrying the success
rcode — not a SERVFAIL-equivalent failure response as the claim states. -/
theorem C3_counterexample :
    handleDnsRequest dohFail ["U1"] reqNonQuery = [setReply reqNonQuery] ∧
    (setReply reqNonQuery).rcode = rcodeSuccess ∧
    rcodeSuccess ≠ rcodeServerFailure := by
  refine ⟨by decide, rfl, by decide⟩

/-- Claim C3 (amended): a request with at least one question whose opcode
is not the standard QUERY opcode is answered immediately by exactly one
reply built from the request — success rcode, the request's transaction
id, no answer records — and no upstream call is attempted (the outcome is
independent of the DoH oracle and the upstream list). -/
theorem C3_nonQueryOpcode (doh doh' : String → String → Nat → Except String (List ρ))
    (ups ups' : List String) (req : Msg ρ)
    (hop : req.opcode ≠ opcodeQuery) (hq : req.question ≠ []) :
    handleDnsRequest doh ups req = [setReply req] ∧
    (setReply req).rcode = rcodeSuccess ∧
    (setReply req).answer = ([] : List ρ) ∧
    (setReply req).id = req.id ∧
    handleDnsRequest doh ups req = handleDnsRequest doh' ups' req := by
  have hlen : ¬req.question.length = 0 := by
    intro hl
    exact hq (List.length_eq_zero.mp hl)
  refine ⟨?_, rfl, rfl, rfl, ?_⟩ <;> simp [handleDnsRequest, hlen, hop]

/-- Claim C3 witness: the amended statement at the concrete non-QUERY
request. -/
theorem C3_witness :
    handleDnsRequest dohSecondOnly ["U1"] reqNonQuery = [setReply reqNonQuery] ∧
    (setReply reqNonQuery).id = 5 :=
  ⟨(C3_nonQueryOpcode dohSecondOnly dohFail ["U1"] [] reqNonQuery
      (by decide) (by decide)).1,
   (C3_nonQueryOpcode dohSecondOnly dohFail ["U1"] [] reqNonQuery
      (by decide) (by decide)).2.2.2.1⟩

/-- Claim C4: when every configured upstream fails on every question of a
QUERY request with at least one question, the handler emits the SERVFAIL
failure response carrying the request's transaction id, and the messages
sent to the client are the same for any failing oracle — no upstream's
raw error detail can appear in them. -/
theorem C4_allFail (doh doh' : String → String → Nat → Except String (List ρ))
    (ups : List String) (req : Msg ρ)
    (hop : req.opcode = opcodeQuery) (hq : req.question ≠ [])
    (hfail : ∀ qq ∈ req.question, ∀ u ∈ ups, ∃ e, doh u qq.name qq.qtype = .error e)
    (hfail' : ∀ qq ∈ req.question, ∀ u ∈ ups, ∃ e, doh' u qq.name qq.qtype = .error e) :
    handleDnsRequest doh ups req = [handleFailedMsg req, setReply req] ∧
    (handleFailedMsg req).id = req.id ∧
    (handleFailedMsg req).rcode = rcodeServerFailure ∧
    handleDnsRequest doh ups req = handleDnsRequest doh' ups req := by
  obtain ⟨q, rest, hq'⟩ : ∃ q rest, req.question = q :: rest := by
    cases hqq : req.question with
    | nil => exact absurd hqq hq
    | cons q rest => exact ⟨q, rest, rfl⟩
  have h1 : tryUpstreams doh ups q = none :=
    tryUpstreams_eq_none doh ups q (hfail q (by simp [hq']))
  have h1' : tryUpstreams doh' ups q = none :=
    tryUpstreams_eq_none doh' ups q (hfail' q (by simp [hq']))
  have e1 := handleDnsRequest_query doh ups req q rest hop hq'
  have e1' := handleDnsRequest_query doh' ups req q rest hop hq'
  rw [h1] at e1
  rw [h1'] at e1'
  exact ⟨e1, rfl, rfl, by rw [e1, e1']⟩

/-- Claim C4 witness: both upstreams fail on the one-question request;
the failure response keeps transaction id 42. -/
theorem C4_witness :
    handleDnsRequest dohFail ["U1", "U2"] reqOneQ =
      [handleFailedMsg reqOneQ, setReply reqOneQ] ∧
    (handleFailedMsg reqOneQ).id = 42 := by
  have w := C4_allFail dohFail (fun _ _ _ => Except.error "tls handshake failed")
    ["U1", "U2"] reqOneQ rfl (by decide)
    (fun qq _ u _ => ⟨"connection refused", rfl⟩)
    (fun qq _ u _ => ⟨"tls handshake failed", rfl⟩)
  exact ⟨w.1, w.2.1⟩

/-- Claim C9: in the same all-upstreams-fail situation the handler in fact
writes TWO messages to the client: first the SERVFAIL failure produced
inside the per-question loop, then — because the final write runs
unconditionally — the reply built from the request, with success rcode
and an empty answer section. -/
theorem C9_doubleWrite (doh : String → String → Nat → Except String (List ρ))
    (ups : List String) (req : Msg ρ)
    (hop : req.opcode = opcodeQuery) (hq : req.question ≠ [])
    (hfail : ∀ qq ∈ req.question, ∀ u ∈ ups, ∃ e, doh u qq.name qq.qtype = .error e) :
    (handleDnsRequest doh ups req).length = 2 ∧
    handleDnsRequest doh ups req = [handleFailedMsg req, setReply req] ∧
    (handleFailedMsg req).rcode = rcodeServerFailure ∧
    (setReply req).rcode = rcodeSuccess ∧
    (setReply req).answer = ([] : List ρ) := by
  obtain ⟨q, rest, hq'⟩ : ∃ q rest, req.question = q :: rest := by
    cases hqq : req.question with
    | nil => exact absurd hqq hq
    | cons q rest => exact ⟨q, rest, rfl⟩
  have h1 : tryUpstreams doh ups q = none :=
    tryUpstreams_eq_none doh ups q (hfail q (by simp [hq']))
  have e1 := handleDnsRequest_query doh ups req q rest hop hq'
  rw [h1] at e1
  exact ⟨by rw [e1]; rfl, e1, rfl, rfl, rfl⟩

/-- Claim C9 witness: the two written messages at a concrete input. -/
theorem C9_witness :
    (handleDnsRequest dohFail ["U1", "U2"] reqOneQ).length = 2 := by
  have w := C9_doubleWrite dohFail ["U1", "U2"] reqOneQ rfl (by decide)
    (fun qq _ u _ => ⟨"connection refused", rfl⟩)
  exact w.1

/-- Claim C1, counterexample: a QUERY request with two questions, where
every upstream fails on the first question but the very first upstream
succeeds on the second. The claim as stated would have the second
question's records appended to the reply; the code never attempts the
second question (the reply built by `SetReply` carries only the first),
so the client receives only the failure response and an answerless
reply. -/
theorem C1_counterexample :
    dohSecondOnly "U1" "b.example." 1 = .ok ["b.example. 300 IN A 192.0.2.1"] ∧
    handleDnsRequest dohSecondOnly ["U1", "U2"] reqTwoQ =
      [handleFailedMsg reqTwoQ, setReply reqTwoQ] ∧
    (handleFailedMsg reqTwoQ).answer = [] ∧
    (setReply reqTwoQ).answer = [] := by
  refine ⟨by decide, by decide, rfl, rfl⟩

/-- Claim C1 (amended): on a QUERY request the handler attempts only the
FIRST question (the reply message carries only that question). For it the
configured upstreams are tried strictly in configured order: the first
upstream call that returns without error contributes exactly its records
(and no others) to the single reply written, and all further processing
stops; an upstream failure does not abort the loop but moves on to the
next upstream; when every upstream fails, no later question is attempted
and the failure response is written. -/
theorem C1_firstQuestionOnly (doh : String → String → Nat → Except String (List ρ))
    (ups : List String) (req : Msg ρ) (q : DnsQuestion) (rest : List DnsQuestion)
    (hop : req.opcode = opcodeQuery) (hq : req.question = q :: rest) :
    (∀ rs, tryUpstreams doh ups q = some rs →
       handleDnsRequest doh ups req = [{ setReply req with answer := rs }]) ∧
    (tryUpstreams doh ups q = none →
       handleDnsRequest doh ups req = [handleFailedMsg req, setReply req]) ∧
    (∀ u us rs, ups = u :: us → doh u q.name q.qtype = .ok rs →
       tryUpstreams doh ups q = some rs) ∧
    (∀ u us e, ups = u :: us → doh u q.name q.qtype = .error e →
       tryUpstreams doh ups q = tryUpstreams doh us q) := by
  refine ⟨?_, ?_, ?_, ?_⟩
  · intro rs h
    have e1 := handleDnsRequest_query doh ups req q rest hop hq
    rw [h] at e1
    exact e1
  · intro h
    have e1 := handleDnsRequest_query doh ups req q rest hop hq
    rw [h] at e1
    exact e1
  · intro u us rs hups hdoh
    subst hups
    simp [tryUpstreams, hdoh]
  · intro u us e hups hdoh
    subst hups
    simp [tryUpstreams, hdoh]

/-- Claim C1 witness: on the one-question request, the first upstream
fails, the second succeeds, and the reply carries exactly the second
upstream's records. -/
theorem C1_witness :
    handleDnsRequest
        (fun u _ _ => if u = "U2" then .ok ["example.com. 300 IN A 93.184.216.34"]
                      else .error "connection refused")
        ["U1", "U2"] reqOneQ =
      [{ setReply reqOneQ with answer := ["example.com. 300 IN A 93.184.216.34"] }] := by
  have w := C1_firstQuestionOnly
    (fun u _ _ => if u = "U2" then .ok ["example.com. 300 IN A 93.184.216.34"]
                  else .error "connection refused")
    ["U1", "U2"] reqOneQ { name := "example.com.", qtype := 1 } [] rfl rfl
  exact w.1 ["example.com. 300 IN A 93.184.216.34"] (by decide)

/-- Claim C10: an envelope with status 0 and an empty answer list makes
`DoHQuery` return successfully with zero records; the fallback loop treats
such a call as the success that ends processing (whatever later upstreams
would have answered), and the client receives the single success reply
with an empty answer section. -/
theorem C10_emptySuccess (newRR : String → Except String ρ) (rr : Response)
    (doh : String → String → Nat → Except String (List ρ))
    (fetch : Option Int → String → String → String → Except String Response)
    (timeout : Int) (req : Msg ρ) (q : DnsQuestion) (rest : List DnsQuestion)
    (u name t : String) (us : List String) (dnsType : Nat)
    (hst : rr.status = 0) (hans : rr.answer = [])
    (ht : typeToString dnsType = .ok t)
    (hf : fetch (dohDeadlineNs timeout) u name t.trim = .ok rr)
    (hop : req.opcode = opcodeQuery) (hq : req.question = q :: rest)
    (hdoh : doh u q.name q.qtype = .ok []) :
    DoHQuery fetch newRR timeout u name dnsType = .ok [] ∧
    handleDnsRequest doh (u :: us) req = [setReply req] ∧
    (setReply req).rcode = rcodeSuccess ∧
    (setReply req).answer = ([] : List ρ) := by
  refine ⟨?_, ?_, rfl, rfl⟩
  · simp [DoHQuery, ht, hf, processEnvelope, hst, hans, convertAnswers]
  · have htu : tryUpstreams doh (u :: us) q = some [] := by
      simp [tryUpstreams, hdoh]
    have e1 := handleDnsRequest_query doh (u :: us) req q rest hop hq
    rw [htu] at e1
    exact e1

/-- Claim C10 witness: empty success envelope, first upstream answers
`.ok []`, client gets the answerless success reply. -/
theorem C10_witness :
    DoHQuery (fetchOf envEmpty) (fun s => Except.ok s) 10 "U1" "example.com." 1 =
      .ok [] ∧
    handleDnsRequest (fun _ _ _ => Except.ok ([] : List String)) ["U1", "U2"]
      reqOneQ = [setReply reqOneQ] := by
  have w := C10_emptySuccess (fun s => Except.ok s) envEmpty
    (fun _ _ _ => Except.ok ([] : List String)) (fetchOf envEmpty) 10 reqOneQ
    { name := "example.com.", qtype := 1 } [] "U1" "example.com." "A" ["U2"] 1
    rfl rfl rfl rfl rfl rfl rfl
  exact ⟨w.1, w.2.1⟩

/-- Claim C6, counterexample: the claim asserts that every positive
configured timeout yields a deadline of exactly that many seconds, but the
computation `timeout * time.Second` runs in wrapping `int64` arithmetic:
at timeout value 9223372037 the product overflows to a negative duration,
so the deadline is not the configured number of seconds. -/
theorem C6_counterexample :
    dohDeadlineNs 9223372037 = some (-9223372036709551616) ∧
    (9223372037 : Int) * timeSecond = 9223372037000000000 ∧
    (-9223372036709551616 : Int) ≠ 9223372037000000000 := by
  have h : (0 : Int) < 9223372037 := by norm_num
  refine ⟨?_, by norm_num [timeSecond], by norm_num⟩
  simp only [dohDeadlineNs, int64wrap, timeSecond, if_pos h]
  norm_num

/-- Claim C6 (amended): a zero or negative configured timeout leaves the
HTTP request without a deadline; a positive timeout whose product with
`time.Second` fits a signed 64-bit integer (timeout ≤ 9223372036 seconds)
bounds the request by a deadline of exactly the configured number of
seconds; for larger positive values the `int64` product wraps, and the
installed deadline is NOT the configured number of seconds. -/
theorem C6_deadline (timeout : Int) :
    (timeout ≤ 0 → dohDeadlineNs timeout = none) ∧
    (0 < timeout → timeout * timeSecond < 2 ^ 63 →
       dohDeadlineNs timeout = some (timeout * timeSecond)) ∧
    (0 < timeout → 2 ^ 63 ≤ timeout * timeSecond →
       dohDeadlineNs timeout ≠ some (timeout * timeSecond)) := by
  refine ⟨?_, ?_, ?_⟩
  · intro h
    simp [dohDeadlineNs, not_lt.mpr h]
  · intro h1 h2
    have hpos : (0 : Int) < timeout * timeSecond :=
      mul_pos h1 (by norm_num [timeSecond])
    have hge : -(2 : Int) ^ 63 ≤ timeout * timeSecond := by linarith
    simp [dohDeadlineNs, h1, int64wrap_eq_self _ hge h2]
  · intro h1 h2 hcontra
    simp only [dohDeadlineNs, if_pos h1, Option.some.injEq] at hcontra
    have hlt := int64wrap_lt (timeout * timeSecond)
    rw [hcontra] at hlt
    linarith

/-- Claim C6 witness: timeout 10 gives a ten-second deadline, timeout 0
gives none. -/
theorem C6_witness :
    dohDeadlineNs 10 = some (10 * timeSecond) ∧ dohDeadlineNs 0 = none :=
  ⟨(C6_deadline 10).2.1 (by norm_num) (by norm_num [timeSecond]),
   (C6_deadline 0).1 (by norm_num)⟩
